import Mathlib

/-!
Verification development for the trading-assistant decision engine.

The Python modules `engine/scoring.py`, `engine/decision_layer.py`,
`engine/risk.py`, `engine/fvg.py` and the feature-extraction part of
`app.py` are shallowly embedded below.  Python floats are modelled as
rationals (all constants appearing in the code are dyadic, so the
arithmetic is exact), Python dicts with `.get(key, default)` access are
modelled as structures whose field defaults are exactly the defaults
in the code (an `Option` field models a key whose absence triggers a
fallback to another key), and fallible code is modelled with `Option`.
-/

namespace TA

/-- `clamp(x, lo, hi)` from `engine/scoring.py` (also duplicated in
`engine/risk.py`): `max(lo, min(hi, x))`. -/
def clamp (x lo hi : ℚ) : ℚ := max lo (min hi x)

/-- Python `str.upper()` (ASCII suffices for the phase/mode strings in
this program).  Defined by structural recursion on the character list so
that it reduces definitionally. -/
def strUpper (s : String) : String := String.mk (s.data.map Char.toUpper)

/-- Python `str.lower()`, as `strUpper`. -/
def strLower (s : String) : String := String.mk (s.data.map Char.toLower)

/-- `SETUP_SCORE_THRESHOLD = 6.5` (`engine/scoring.py`). -/
def SETUP_SCORE_THRESHOLD : ℚ := 13/2

/-- `EXECUTION_CONFIDENCE_MIN = 8.0` (`engine/scoring.py`). -/
def EXECUTION_CONFIDENCE_MIN : ℚ := 8

/-- `MIN_RR = 2.0` (`engine/scoring.py`). -/
def MIN_RR : ℚ := 2

/-- `AssetProfile` from `engine/profiles.py`.  Note: it has no `mode` and
no `equity`-like attribute, which matters for `_get_equity` and for the
`getattr(p, "mode", "conservative")` fallbacks in the decision layer. -/
structure AssetProfile where
  symbol : String
  display : String := ""
  asset_class : String := ""
  volatility : String := ""
  news_sensitivity : String := ""
  aggression_default : String := ""
  rr_min : ℚ := 5/2
  certified_rr_min : ℚ := 5/2
deriving DecidableEq

/-- The per-symbol factor dict, as read by the engine.  Every plain field
default is the corresponding `.get(key, default)` default in the code; an
`Option` field models presence/absence of a key whose absence makes the
code fall back to another key (or, for `entry`/`stop`/`tp1`/`tp2` and
`min_rr`, models a non-numeric "TBD"/absent value).  The `df` entry
(a pandas DataFrame) is not read by the engine and is omitted. -/
structure Factors where
  bias? : Option String := none
  po3_bias? : Option String := none
  po3_phase : String := "ACCUMULATION"
  po3_active : Bool := false
  accumulation_detected : Bool := false
  liquidity_sweep : Bool := false
  agreement_reclaim : Bool := false
  mss_shift : Bool := false
  entry_confirmed : Bool := false
  entry_confirm_type : String := "none"
  entry_confirmed_sniper? : Option Bool := none
  entry_confirm_type_sniper? : Option String := none
  entry_confirmed_continuation? : Option Bool := none
  entry_confirm_type_continuation? : Option String := none
  cisd_confirmed : Bool := false
  sniper_clean : Bool := false
  entry_quality : Bool := false
  session_alignment : Bool := false
  session_valid_sniper : Bool := true
  session_valid_continuation : Bool := true
  htf_alignment : Bool := false
  htf_bias : String := ""
  distribution_active : Bool := false
  session_name : String := ""
  session_boost : ℚ := 0
  structure_ok : Bool := false
  structure_ok_continuation? : Option Bool := none
  liquidity_ok : Bool := false
  certified : Bool := false
  rr : ℚ := 0
  near_fvg : Bool := false
  fvg_score : ℚ := 0
  news_risk : String := ""
  news_block : Bool := false
  volatility_risk : String := "normal"
  data_provider : String := ""
  used_ticker : String := ""
  fetch_error : String := ""
  entry? : Option ℚ := none
  stop? : Option ℚ := none
  tp1? : Option ℚ := none
  tp2? : Option ℚ := none
  agreement_line : ℚ := 0
  is_priority : Bool := false
  min_rr : ℚ := 3
  bull_break : Bool := false
  bear_break : Bool := false
  risk_mult : ℚ := 1
  regime : String := "trend"
deriving DecidableEq

/-- `factors.get("po3_bias", factors.get("bias", "neutral"))` — the bias
value the Decision Gate actually uses (`engine/scoring.py`, line 110). -/
def Factors.gateBias (f : Factors) : String :=
  f.po3_bias?.getD (f.bias?.getD "neutral")

/-- The dict returned by `build_score_breakdown` (`engine/scoring.py`). -/
structure ScoreBreakdown where
  po3_score : ℚ
  sweep_score : ℚ
  agreement_score : ℚ
  mss_score : ℚ
  entry_score : ℚ
  session_score : ℚ
  htf_score : ℚ
  distribution_bonus : ℚ
  bias_score : ℚ := 0
  structure_score : ℚ := 0
  liquidity_score : ℚ := 0
  rr_score : ℚ := 0
  volatility_penalty : ℚ := 0
  news_penalty : ℚ := 0
  htf_penalty : ℚ := 0
  regime_penalty : ℚ := 0
  total_score : ℚ
deriving DecidableEq

/-- `build_score_breakdown(profile, factors)` from `engine/scoring.py`.
The `profile` argument is unused, exactly as in the source. -/
def build_score_breakdown (_profile : AssetProfile) (f : Factors) : ScoreBreakdown :=
  let po3_active := f.po3_active
  let liquidity_sweep := f.liquidity_sweep
  let agreement_reclaim := f.agreement_reclaim
  let mss_shift := f.mss_shift
  let session_alignment := f.session_alignment
  let htf_alignment := f.htf_alignment
  let distribution_active := f.distribution_active
  let entry_confirmed_any :=
    f.entry_confirmed_sniper?.getD false
      || f.entry_confirmed_continuation?.getD false
      || f.entry_confirmed
  let po3_score : ℚ := if po3_active then 2 else 0
  let sweep_score : ℚ := if liquidity_sweep then 2 else 0
  let agreement_score : ℚ := if agreement_reclaim then 1 else 0
  let mss_score : ℚ := if mss_shift then 2 else 0
  let entry_score : ℚ := if entry_confirmed_any then 1 else 0
  let session_score : ℚ := if session_alignment then 1 else 0
  let htf_score : ℚ := if htf_alignment then 1 else 0
  let distribution_bonus : ℚ := if distribution_active then 1/2 else 0
  let total_score :=
    po3_score + sweep_score + agreement_score + mss_score + entry_score
      + session_score + htf_score + distribution_bonus
  { po3_score := po3_score
    sweep_score := sweep_score
    agreement_score := agreement_score
    mss_score := mss_score
    entry_score := entry_score
    session_score := session_score
    htf_score := htf_score
    distribution_bonus := distribution_bonus
    total_score := clamp total_score 0 10 }

/-- The `meta` dict built as `base_meta` in `decide_from_factors`
(`engine/scoring.py`, lines 158–173).  The execution branches add an
extra `entry_confirm_type` key, modelled by the `Option` field. -/
structure BaseMeta where
  po3_phase : String
  setup_type : String
  model : String := "PO3_SNIPER_FIRST"
  news_flag : Bool
  htf_alignment : Bool
  structure_ok_continuation : Bool
  entry_confirm_type_sniper : String
  entry_confirm_type_continuation : String
  cisd_confirmed : Bool
  distribution_bonus : ℚ
  sniper_clean : Bool
  sniper_bonus : ℚ
  sniper_confidence : ℚ
  entry_confirm_type? : Option String := none
deriving DecidableEq

/-- The `meta` dict built by `apply_sizing` (`engine/risk.py`). -/
structure SizingMeta where
  equity : ℚ
  base_risk_pct : ℚ
  conf_mult : ℚ
  vol_mult : ℚ
  stop_dist : ℚ
  size_tier : String
deriving DecidableEq

/-- The shapes a `Decision.meta` dict takes in the program: the empty
dict `{}` (dataclass default), the `base_meta` of the gate, or the sizing
meta with which `apply_sizing` replaces it. -/
inductive MetaDict where
  | empty : MetaDict
  | base : BaseMeta → MetaDict
  | sizing : SizingMeta → MetaDict
deriving DecidableEq

/-- The `trade_plan` dict.  `none` in a price field models the string
sentinel `"TBD"` (or an absent key); the sizing fields are merged in by
`apply_sizing`.  The empty dict `{}` is the record with all fields
`none`. -/
structure TradePlan where
  entry? : Option ℚ := none
  stop? : Option ℚ := none
  tp1? : Option ℚ := none
  tp2? : Option ℚ := none
  rr? : Option ℚ := none
  risk_pct? : Option ℚ := none
  risk_amount? : Option ℚ := none
  stop_dist? : Option ℚ := none
  size? : Option ℚ := none
  equity_used? : Option ℚ := none
deriving DecidableEq

/-- The `Decision` dataclass from `engine/scoring.py` (field defaults as
in the dataclass; `trade_plan` has no default in the source but every
constructor call passes it, `{}` when empty). -/
structure Decision where
  symbol : String
  bias : String
  mode : String
  confidence : ℚ
  action : String
  commentary : String
  trade_plan : TradePlan := {}
  score : ℚ := 0
  risk_pct : ℚ := 0
  size : ℚ := 0
  meta : MetaDict := MetaDict.empty
deriving DecidableEq

/-- The `sniper_ready` condition of `decide_from_factors`
(`engine/scoring.py`, lines 191–203), as a predicate on the factor set. -/
def sniper_ready (f : Factors) : Prop :=
  (strUpper f.po3_phase = "ACCUMULATION" ∨ strUpper f.po3_phase = "MANIPULATION")
    ∧ f.accumulation_detected = true
    ∧ f.liquidity_sweep = true
    ∧ f.agreement_reclaim = true
    ∧ f.mss_shift = true
    ∧ f.entry_confirmed_sniper?.getD f.entry_confirmed = true
    ∧ f.session_valid_sniper = true
    ∧ f.rr ≥ MIN_RR
    ∧ (f.gateBias = "bullish" ∨ f.gateBias = "bearish")

instance (f : Factors) : Decidable (sniper_ready f) := by
  unfold sniper_ready; infer_instance

/-- The `continuation_ready` condition of `decide_from_factors`
(`engine/scoring.py`, lines 233–242). -/
def continuation_ready (f : Factors) : Prop :=
  (strUpper f.po3_phase = "DISTRIBUTION" ∧ f.distribution_active = true)
    ∧ f.structure_ok_continuation?.getD f.structure_ok = true
    ∧ f.entry_confirmed_continuation?.getD f.entry_confirmed = true
    ∧ f.session_valid_continuation = true
    ∧ f.rr ≥ MIN_RR
    ∧ (f.gateBias = "bullish" ∨ f.gateBias = "bearish")

instance (f : Factors) : Decidable (continuation_ready f) := by
  unfold continuation_ready; infer_instance

/-- `decide_from_factors(symbol, profile, factors)` from
`engine/scoring.py`. -/
def decide_from_factors (symbol : String) (profile : AssetProfile) (f : Factors) : Decision :=
  let po3_bias := f.gateBias
  let rr := f.rr
  let news_block := f.news_block
  let news_note := if news_block then " ⚠️ News risk: high-impact events nearby." else ""
  let po3_phase := strUpper f.po3_phase
  let liquidity_sweep := f.liquidity_sweep
  let mss_shift := f.mss_shift
  let htf_alignment := f.htf_alignment
  let distribution_active := f.distribution_active
  let structure_ok_cont := f.structure_ok_continuation?.getD f.structure_ok
  let entry_confirmed_sniper := f.entry_confirmed_sniper?.getD f.entry_confirmed
  let entry_type_sniper := f.entry_confirm_type_sniper?.getD f.entry_confirm_type
  let entry_confirmed_cont := f.entry_confirmed_continuation?.getD f.entry_confirmed
  let entry_type_cont := f.entry_confirm_type_continuation?.getD f.entry_confirm_type
  let score_breakdown := build_score_breakdown profile f
  let confidence := score_breakdown.total_score
  let sniper_clean := f.sniper_clean
  let sniper_bonus : ℚ := if sniper_clean then 1 else 0
  let sniper_confidence := clamp (confidence + sniper_bonus) 0 10
  let base_meta : BaseMeta :=
    { po3_phase := po3_phase
      setup_type := "NONE"
      news_flag := news_block
      htf_alignment := htf_alignment
      structure_ok_continuation := structure_ok_cont
      entry_confirm_type_sniper := entry_type_sniper
      entry_confirm_type_continuation := entry_type_cont
      cisd_confirmed := f.cisd_confirmed
      distribution_bonus := score_breakdown.distribution_bonus
      sniper_clean := sniper_clean
      sniper_bonus := sniper_bonus
      sniper_confidence := sniper_confidence }
  if rr < MIN_RR then
    { symbol := symbol
      bias := po3_bias
      mode := "standby"
      confidence := confidence
      action := "WAIT"
      commentary := "RR below minimum 2.0 requirement." ++ news_note
      trade_plan := {}
      score := confidence
      meta := MetaDict.base base_meta }
  else if sniper_ready f ∧ sniper_confidence ≥ EXECUTION_CONFIDENCE_MIN then
    let action := if po3_bias = "bullish" then "BUY NOW" else "SELL NOW"
    let trade_plan : TradePlan :=
      { entry? := f.entry?, stop? := f.stop?, tp1? := f.tp1?, tp2? := f.tp2?, rr? := some rr }
    let meta := { base_meta with setup_type := "SNIPER", entry_confirm_type? := some entry_type_sniper }
    let bonus_tag := if sniper_bonus > 0 then " + clean bonus" else ""
    { symbol := symbol
      bias := po3_bias
      mode := "sniper"
      confidence := confidence
      action := action
      commentary := "PO3 SNIPER (" ++ entry_type_sniper
        ++ "): accumulation → sweep → agreement reclaim → MSS." ++ bonus_tag ++ news_note
      trade_plan := trade_plan
      score := confidence
      meta := MetaDict.base meta }
  else if continuation_ready f ∧ confidence ≥ SETUP_SCORE_THRESHOLD then
    let action := if po3_bias = "bullish" then "BUY NOW" else "SELL NOW"
    let trade_plan : TradePlan :=
      { entry? := f.entry?, stop? := f.stop?, tp1? := f.tp1?, tp2? := f.tp2?, rr? := some rr }
    let htf_tag := if htf_alignment then " (HTF aligned)" else " (HTF not aligned)"
    let meta := { base_meta with setup_type := "CONTINUATION", entry_confirm_type? := some entry_type_cont }
    { symbol := symbol
      bias := po3_bias
      mode := "continuation"
      confidence := confidence
      action := action
      commentary := "CONTINUATION (" ++ entry_type_cont
        ++ "): distribution active + structure OK" ++ htf_tag ++ "." ++ news_note
      trade_plan := trade_plan
      score := confidence
      meta := MetaDict.base meta }
  else
    let continuation_phase_ok := po3_phase = "DISTRIBUTION" ∧ distribution_active = true
    let commentary :=
      if po3_phase = "ACCUMULATION" ∧ structure_ok_cont = true then
        "Trend developing; waiting for MSS/confirmation (not forcing sweep)."
      else if liquidity_sweep = false then
        "Waiting for valid liquidity sweep (Phase 2 manipulation)."
      else if liquidity_sweep = true ∧ mss_shift = false then
        "Sweep detected; waiting for 15m MSS and displacement confirmation."
      else if (liquidity_sweep = true ∧ mss_shift = true) ∧ entry_confirmed_sniper = false then
        "PO3 structure present; waiting for SNIPER entry confirmation (wick→expansion OR CISD)."
      else if continuation_phase_ok ∧ entry_confirmed_cont = false then
        "Distribution active; waiting for CONTINUATION entry confirmation (wick→expansion)."
      else
        "No clean PO3 narrative yet (no forced trades)."
    { symbol := symbol
      bias := po3_bias
      mode := "standby"
      confidence := confidence
      action := "WATCH"
      commentary := commentary ++ news_note
      trade_plan := {}
      score := confidence
      meta := MetaDict.base base_meta }

/-- Rounding to the nearest integer with ties to even — the rounding used
by Python `round(x, n)` and `%.2f` formatting (exact on our rationals). -/
def roundHalfEven (x : ℚ) : ℤ :=
  let f := ⌊x⌋
  let r := x - f
  if r < 1/2 then f
  else if 1/2 < r then f + 1
  else if f % 2 = 0 then f else f + 1

/-- Python `round(x, n)` on our rational model of floats. -/
def pyRound (x : ℚ) (n : ℕ) : ℚ := (roundHalfEven (x * 10 ^ n) : ℚ) / 10 ^ n

/-- Python `f"{x:.2f}"` on our rational model of floats. -/
def format2 (x : ℚ) : String :=
  let n := roundHalfEven (x * 100)
  let sign := if n < 0 then "-" else ""
  let m := n.natAbs
  let ip := m / 100
  let fp := m % 100
  sign ++ toString ip ++ "." ++ (if fp < 10 then "0" ++ toString fp else toString fp)

/-- `_get_equity(profile, default_equity)` from `engine/risk.py`.
`AssetProfile` (a frozen dataclass) has none of the attributes
`equity`/`account_equity`/`balance`/`account_balance`, so every
`hasattr` test fails and the default is always returned. -/
def _get_equity (_profile : AssetProfile) (default_equity : ℚ := 10000) : ℚ :=
  default_equity

/-- `_mode_base_risk_pct(mode)` from `engine/risk.py`.  Note that the
modes the gate actually emits ("sniper", "continuation") are not among
the recognised names and fall into the unknown-mode branch. -/
def _mode_base_risk_pct (mode : String) : ℚ :=
  let m := strLower mode
  if m = "standby" then 0
  else if m = "conservative" then 1/400
  else if m = "balanced" then 1/200
  else if m = "aggressive" then 3/400
  else 1/400

/-- `_volatility_mult(vol_risk)` from `engine/risk.py` (a Python falsy
empty string falls back to "normal"). -/
def _volatility_mult (vol_risk : String) : ℚ :=
  let v := strLower (if vol_risk = "" then "normal" else vol_risk)
  if v = "high" then 3/5
  else if v = "extreme" then 1/4
  else 1

/-- `apply_sizing(decision, profile, factors, default_equity)` from
`engine/risk.py`.  A factor value that `float()` cannot parse (the "TBD"
sentinel or an absent key) is modelled by `none`, in which case the
decision is returned unchanged, exactly like the `except` branch. -/
def apply_sizing (decision : Decision) (profile : AssetProfile) (f : Factors)
    (default_equity : ℚ := 10000) : Decision :=
  match f.entry?, f.stop? with
  | some entry_f, some stop_f =>
    let stop_dist := |entry_f - stop_f|
    if stop_dist ≤ 0 then decision
    else
      let equity := _get_equity profile default_equity
      let confidence := decision.confidence
      let base_risk := _mode_base_risk_pct decision.mode
      let conf_mult := clamp ((confidence - 5) / 5) 0 1
      let vol_mult := _volatility_mult f.volatility_risk
      let risk_pct := clamp (base_risk * conf_mult * vol_mult) 0 (1/100)
      let regime := f.regime
      let vol := f.volatility_risk
      let liquidity_ok := f.liquidity_ok
      let size_tier :=
        if regime = "no_data" ∨ regime = "chop" ∨ regime = "extreme_vol" ∨ vol = "extreme" then
          "OFF"
        else if vol = "high" then "SMALL"
        else if confidence ≥ 9 ∧ liquidity_ok = true ∧ regime = "trend" then "LARGE"
        else if confidence ≥ 15/2 then "MEDIUM"
        else "SMALL"
      let risk_amt := equity * risk_pct
      let size := if stop_dist ≠ 0 then risk_amt / stop_dist else 0
      let tp :=
        { decision.trade_plan with
          risk_pct? := some (pyRound risk_pct 6)
          risk_amount? := some (pyRound risk_amt 2)
          stop_dist? := some (pyRound stop_dist 6)
          size? := some (pyRound size 6)
          equity_used? := some (pyRound equity 2) }
      let meta := MetaDict.sizing
        { equity := equity
          base_risk_pct := base_risk
          conf_mult := pyRound conf_mult 4
          vol_mult := vol_mult
          stop_dist := stop_dist
          size_tier := size_tier }
      { decision with risk_pct := risk_pct, size := size, meta := meta, trade_plan := tp }
  | _, _ => decision

/-- `COOLDOWN_SECS = 60 * 30` from `engine/decision_layer.py` — thirty
minutes, per the source comment. -/
def COOLDOWN_SECS : ℤ := 60 * 30

/-- The per-symbol cooldown dictionaries `_last_fired` (symbol → action)
and `_last_fired_ts` (symbol → unix seconds, `.get(sym, 0)`), persisted
in `st.session_state` across refresh cycles. -/
structure CooldownState where
  lastFired : String → Option String
  lastFiredTs : String → ℤ

/-- The state before any firing: both dictionaries empty. -/
def initialCooldownState : CooldownState :=
  { lastFired := fun _ => none, lastFiredTs := fun _ => 0 }

/-- Step 6 of `run_decisions` (`engine/decision_layer.py`, lines
150–169): the cooldown gate, returning the possibly downgraded decision
and the updated cooldown state. -/
def cooldown_gate (sym : String) (d : Decision) (now : ℤ) (st : CooldownState) :
    Decision × CooldownState :=
  if d.action = "BUY NOW" ∨ d.action = "SELL NOW" then
    let last_action := st.lastFired sym
    let last_ts := st.lastFiredTs sym
    let in_window := now - last_ts < COOLDOWN_SECS
    if in_window ∧ last_action = some d.action then
      ({ symbol := sym
         bias := d.bias
         mode := d.mode
         confidence := d.confidence
         action := "WAIT"
         commentary := "Cooldown gate: already fired recently"
         trade_plan := {} }, st)
    else
      (d, { lastFired := fun s => if s = sym then some d.action else st.lastFired s
            lastFiredTs := fun s => if s = sym then now else st.lastFiredTs s })
  else (d, st)

/-- Steps 3–4 of `run_decisions` (`engine/decision_layer.py`, lines
96–120): the proposed action after the breakout-trigger promotion and
the `risk_mult` sizing safety. -/
def breakout_propose (d0 : Decision) (f : Factors) : String :=
  let bias := strLower d0.bias
  let proposed :=
    if bias = "bullish" ∧ f.bull_break = true then "BUY NOW"
    else if bias = "bearish" ∧ f.bear_break = true then "SELL NOW"
    else if d0.action = "BUY NOW" ∨ d0.action = "SELL NOW" then "WATCH"
    else d0.action
  if f.risk_mult ≤ 0 ∧ (proposed = "BUY NOW" ∨ proposed = "SELL NOW") then "WAIT"
  else proposed

/-- The write-back of the proposed action (`engine/decision_layer.py`,
lines 122–132): rebuild the decision only when the action changed. -/
def promote_decision (sym : String) (d0 : Decision) (f : Factors) : Decision :=
  if breakout_propose d0 f ≠ d0.action then
    { symbol := sym
      bias := d0.bias
      mode := d0.mode
      confidence := d0.confidence
      action := breakout_propose d0 f
      commentary := "Breakout/regime/RR rules applied"
      trade_plan := {} }
  else d0

/-- Step 5 of `run_decisions` (`engine/decision_layer.py`, lines
134–147): the confidence execution gate. -/
def conf_gate (sym : String) (d1 : Decision) : Decision :=
  if (d1.action = "BUY NOW" ∨ d1.action = "SELL NOW") ∧ d1.confidence < 6 then
    { symbol := sym
      bias := d1.bias
      mode := d1.mode
      confidence := d1.confidence
      action := "WAIT"
      commentary := "Confidence gate: below execution threshold"
      trade_plan := {} }
  else d1

/-- The body of the per-profile loop of `run_decisions`
(`engine/decision_layer.py`, lines 48–171): base scoring and sizing,
then the regime gate, the RR-minimum gate, the breakout promotion with
the `risk_mult` safety, the confidence execution gate, and the
cooldown. -/
def runDecisionStep (p : AssetProfile) (f : Factors) (now : ℤ) (st : CooldownState) :
    Decision × CooldownState :=
  let sym := p.symbol
  let d0 := apply_sizing (decide_from_factors sym p f) p f
  if f.structure_ok = false ∨ strLower f.volatility_risk = "extreme" then
    ({ symbol := sym
       bias := d0.bias
       mode := d0.mode
       confidence := d0.confidence
       action := "WAIT"
       commentary := "Regime gate: chop or extreme volatility"
       trade_plan := {} }, st)
  else if f.rr < f.min_rr then
    (if d0.action = "BUY NOW" ∨ d0.action = "SELL NOW" then
       { symbol := sym
         bias := d0.bias
         mode := d0.mode
         confidence := d0.confidence
         action := "WATCH"
         commentary := "RR gate: rr=" ++ format2 f.rr ++ " < min_rr=" ++ format2 f.min_rr
         trade_plan := {} }
     else d0, st)
  else
    cooldown_gate sym (conf_gate sym (promote_decision sym d0 f)) now st

/-- `factors_by_symbol.get(sym, {})`. -/
def lookupFactors (fbs : List (String × Factors)) (sym : String) : Factors :=
  (((fbs.find? (fun kv => kv.1 == sym)).map Prod.snd)).getD {}

/-- `run_decisions(profiles, factors_by_symbol)` from
`engine/decision_layer.py`, with the ambient session state and the
single `now = int(time.time())` made explicit. -/
def run_decisions : List AssetProfile → List (String × Factors) → ℤ → CooldownState →
    List Decision × CooldownState
  | [], _, _, st => ([], st)
  | p :: ps, fbs, now, st =>
    let r := runDecisionStep p (lookupFactors fbs p.symbol) now st
    let rest := run_decisions ps fbs now r.2
    (r.1 :: rest.1, rest.2)

/-- `session_valid_flags(sess)` from `app.py` (`build_snapshot`): both
flags are unconditionally true ("Asia NOT stricter anymore"). -/
def session_valid_flags (_sess : String) : Bool × Bool := (true, true)

/-- `TOP_PRIORITY_UNIVERSE` from `app.py`. -/
def TOP_PRIORITY_UNIVERSE : List String :=
  ["US100", "US30", "US500", "EURUSD", "GBPUSD", "USDJPY", "AUDUSD", "XAUUSD"]

/-- The factor dict `build_snapshot` stores for a symbol whose bar
series is empty or shorter than 60 bars (`app.py`, lines 453–499).
`none` in the price-level fields models the "TBD" sentinel; the `df`
entry is omitted as before. -/
def neutralFactors (sym session_label : String) (news_block : Bool)
    (provider used_ticker fetch_error : String) : Factors :=
  let flags := session_valid_flags session_label
  let session_valid_sniper := flags.1
  let session_valid_continuation := flags.2
  let session_alignment := session_valid_continuation
  { bias? := some "neutral"
    po3_bias? := some "neutral"
    po3_phase := "ACCUMULATION"
    po3_active := false
    accumulation_detected := false
    liquidity_sweep := false
    agreement_reclaim := false
    mss_shift := false
    entry_confirmed := false
    entry_confirm_type := "none"
    entry_confirmed_sniper? := some false
    entry_confirm_type_sniper? := some "none"
    entry_confirmed_continuation? := some false
    entry_confirm_type_continuation? := some "none"
    cisd_confirmed := false
    sniper_clean := false
    entry_quality := false
    session_alignment := session_alignment
    session_valid_sniper := session_valid_sniper
    session_valid_continuation := session_valid_continuation
    htf_alignment := false
    distribution_active := false
    session_name := session_label
    session_boost := 0
    structure_ok := false
    structure_ok_continuation? := some false
    liquidity_ok := false
    certified := false
    rr := 0
    near_fvg := false
    fvg_score := 0
    news_risk := if news_block then "against" else "none"
    news_block := news_block
    volatility_risk := "normal"
    data_provider := provider
    used_ticker := used_ticker
    fetch_error := fetch_error
    entry? := none
    stop? := none
    tp1? := none
    tp2? := none
    is_priority := TOP_PRIORITY_UNIVERSE.contains sym }

/-- `_freshness_weight(age_bars)` from `engine/fvg.py`: linear decay,
zero from 60 bars of age on. -/
def _freshness_weight (age_bars : ℕ) : ℚ :=
  max 0 (1 - (age_bars : ℚ) / 60)

/-- The life multiplier of `compute_fvg_context` (`engine/fvg.py`,
lines 209–214): 0 when the gap is filled, 0.5 when merely touched, else
1. -/
def fvg_life (touched filled : Bool) : ℚ :=
  if filled then 0 else if touched then 1/2 else 1

/-- The per-gap score of `compute_fvg_context` (`engine/fvg.py`, lines
217–218): `score = (1.2*prox + 0.9*fresh + 0.9*size) * life`, with the
proximity and relative-size terms as parameters (they are held fixed in
the claim). -/
def fvg_gap_score (prox size : ℚ) (touched filled : Bool) (age_bars : ℕ) : ℚ :=
  ((12/10) * prox + (9/10) * _freshness_weight age_bars + (9/10) * size)
    * fvg_life touched filled

/-- The `fvg_score` output of `compute_fvg_context` when a single gap is
in scope: `best = max(0, score)` (the accumulator starts at 0), then
`round(best, 3)`. -/
def compute_fvg_score_single (prox size : ℚ) (touched filled : Bool) (age_bars : ℕ) : ℚ :=
  pyRound (max 0 (fvg_gap_score prox size touched filled age_bars)) 3

/-- One OHLC bar (`op` stands for the `open` column, a reserved word). -/
structure Bar where
  op : ℚ
  high : ℚ
  low : ℚ
  close : ℚ
deriving DecidableEq

/-- pandas `.max()` over a series (never called on empty data here). -/
def maxD : List ℚ → ℚ
  | [] => 0
  | x :: r => r.foldl max x

/-- pandas `.min()` over a series (never called on empty data here). -/
def minD : List ℚ → ℚ
  | [] => 0
  | x :: r => r.foldl min x

/-- `price_action_bias(df_tf)` from `app.py` (`build_snapshot`). -/
def price_action_bias (df : List Bar) : String :=
  if df.length < 50 then "neutral"
  else
    let recent := df.drop (df.length - 24)
    let prev0 := (df.drop (df.length - 48)).take 24
    let prev := if prev0.length < 10 then df.drop (df.length - 48) else prev0
    let r_high := maxD (recent.map Bar.high)
    let r_low := minD (recent.map Bar.low)
    let p_high := maxD (prev.map Bar.high)
    let p_low := minD (prev.map Bar.low)
    let c0 := (recent.map Bar.close).headD 0
    let c1 := (recent.map Bar.close).getLastD 0
    if r_high > p_high ∧ r_low > p_low ∧ c1 > c0 then "bullish"
    else if r_high < p_high ∧ r_low < p_low ∧ c1 < c0 then "bearish"
    else "neutral"

/-- `detect_sweep(df_15m)` from `app.py` (`build_snapshot`): the pair
`(sweep_above, sweep_below)` over the prior window `iloc[-35:-1]`. -/
def detect_sweep (df : List Bar) : Bool × Bool :=
  if df.length < 40 then (false, false)
  else
    let prior := (df.drop (df.length - 35)).take 34
    let prior_high := maxD (prior.map Bar.high)
    let prior_low := minD (prior.map Bar.low)
    let last := df.getLastD { op := 0, high := 0, low := 0, close := 0 }
    (decide (last.high > prior_high ∧ last.close < prior_high),
     decide (last.low < prior_low ∧ last.close > prior_low))

/-- The per-bar true range used by `atr` in `build_snapshot`: the first
row has NaN `hc`/`lc` entries, which `max(axis=1)` skips, leaving
`high - low`. -/
def trueRanges : List Bar → List ℚ
  | [] => []
  | b :: rest => (b.high - b.low) :: go b rest
where
  go : Bar → List Bar → List ℚ
  | _, [] => []
  | prev, b :: r =>
    max (b.high - b.low) (max |b.high - prev.close| |b.low - prev.close|) :: go b r

/-- `atr(df, n).iloc[-1]` from `app.py` (`build_snapshot`): the mean of
the last `n` true ranges, `none` when the rolling window is not yet full
(a pandas NaN). -/
def atr_last (df : List Bar) (n : ℕ := 14) : Option ℚ :=
  let trs := trueRanges df
  if trs.length < n ∨ n = 0 then none
  else some (((trs.drop (trs.length - n)).foldl (· + ·) 0) / (n : ℚ))

/-- The trade-plan levels fragment of `build_snapshot` (`app.py`, lines
501–571 restricted to what feeds `rr`): the PO3 bias (trend bias with
the sweep override) and the `rr` value.  The `rr` division
`abs(tp1 - entry) / abs(entry - stop)` raises `ZeroDivisionError` in
Python when `entry == stop`; that exception is modelled by `none`. -/
def build_trade_plan_rr (df : List Bar) : String × Option ℚ :=
  let trend_bias := price_action_bias df
  let sw := detect_sweep df
  let po3_bias := if sw.1 then "bearish" else if sw.2 then "bullish" else trend_bias
  let a := (atr_last df).getD 0
  let entry := (df.map Bar.close).getLastD 0
  if po3_bias = "bullish" then
    let stop := entry - (12/10) * a
    let tp1 := entry + 2 * (entry - stop)
    (po3_bias,
     if |entry - stop| = 0 then none
     else some (pyRound (|tp1 - entry| / |entry - stop|) 2))
  else if po3_bias = "bearish" then
    let stop := entry + (12/10) * a
    let tp1 := entry - 2 * (stop - entry)
    (po3_bias,
     if |entry - stop| = 0 then none
     else some (pyRound (|tp1 - entry| / |entry - stop|) 2))
  else (po3_bias, some 0)

/-- The EURUSD entry of `DEFAULT_PROFILES` (`engine/profiles.py`). -/
def eurusdProfile : AssetProfile :=
  { symbol := "EURUSD"
    display := "EUR/USD"
    asset_class := "fx"
    volatility := "medium"
    news_sensitivity := "medium"
    aggression_default := "balanced"
    rr_min := 5/2
    certified_rr_min := 5/2 }

/-- A factor set with a bullish breakout flag, adequate RR and structure
but neither setup ready (no accumulation, phase ACCUMULATION): the
breakout-promotion path of `run_decisions` fires on it. -/
def breakoutFactors : Factors :=
  { po3_bias? := some "bullish"
    rr := 3
    structure_ok := true
    bull_break := true
    po3_active := true
    liquidity_sweep := true
    mss_shift := true
    agreement_reclaim := true }

/-- Like `breakoutFactors` but with `rr = 1.5` and a `min_rr` override
of `1.0`, so the RR-minimum gate of `run_decisions` passes while the
the 2.0 floor of the Decision Gate itself fails. -/
def lowRRFactors : Factors :=
  { po3_bias? := some "bullish"
    rr := 3/2
    min_rr := 1
    structure_ok := true
    bull_break := true
    po3_active := true
    liquidity_sweep := true
    mss_shift := true
    agreement_reclaim := true }

/-- A fully sniper-ready factor set (confidence 10) that also passes
every `run_decisions` gate (structure, RR ≥ 3, matching breakout). -/
def sniperFactors : Factors :=
  { po3_bias? := some "bullish"
    rr := 3
    po3_phase := "MANIPULATION"
    accumulation_detected := true
    liquidity_sweep := true
    agreement_reclaim := true
    mss_shift := true
    entry_confirmed_sniper? := some true
    po3_active := true
    session_alignment := true
    htf_alignment := true
    structure_ok := true
    bull_break := true }

/-- A cooldown state recording a BUY NOW for EURUSD at time 0. -/
def firedState : CooldownState :=
  { lastFired := fun s => if s = "EURUSD" then some "BUY NOW" else none
    lastFiredTs := fun _ => 0 }

/-- The neutral factor set for EURUSD with no imminent news. -/
def neutralEURUSD : Factors :=
  neutralFactors "EURUSD" "Asia / Off-hours" false "none" "EURUSD" "empty_or_insufficient_bars"

/-- A degenerate bar whose four prices coincide. -/
def mkDoji (v : ℚ) : Bar := { op := v, high := v, low := v, close := v }

/-- Sixty degenerate bars (each with `high == low`): 36 bars at 0.5, a
nine-bar rise 1..9, then fifteen bars at 10.  The price-action bias is
bullish, no sweep fires, and the last fourteen true ranges are all zero,
so ATR is 0 and the stop coincides with the entry. -/
def failingBars : List Bar :=
  List.replicate 36 (mkDoji (1/2))
    ++ (List.range 9).map (fun i => mkDoji ((i : ℚ) + 1))
    ++ List.replicate 15 (mkDoji 10)

/-- A sniper-mode decision at confidence 8. -/
def sniperDecision8 : Decision :=
  { symbol := "EURUSD"
    bias := "bullish"
    mode := "sniper"
    confidence := 8
    action := "BUY NOW"
    commentary := "" }

/-- The same decision with mode "continuation". -/
def continuationDecision8 : Decision :=
  { sniperDecision8 with mode := "continuation" }

/-- A factor set with numeric entry/stop one unit apart and normal
volatility. -/
def sizingFactors : Factors :=
  { entry? := some 100, stop? := some 99 }

/-- A standby-mode decision at confidence 4. -/
def standbyDecision : Decision :=
  { symbol := "EURUSD"
    bias := "neutral"
    mode := "standby"
    confidence := 4
    action := "WAIT"
    commentary := "" }

/-- The decision the pipeline loop body emits for `sniperFactors` from a
clean cooldown state. -/
def emittedSniperDecision : Decision :=
  (runDecisionStep eurusdProfile sniperFactors 0 initialCooldownState).1

/-!  Theorems.  The `Rat` arithmetic operations are `@[irreducible]` in
Batteries only to keep goals tidy; the kernel unfolds them regardless,
and re-marking them semireducible lets concrete decision runs be
evaluated by `decide`. -/

attribute [local semireducible] Rat.add Rat.mul Rat.sub Rat.inv

set_option maxRecDepth 100000

theorem lo_le_clamp (x lo hi : ℚ) : lo ≤ clamp x lo hi :=
  le_max_left _ _

theorem clamp_le_hi (x lo hi : ℚ) (h : lo ≤ hi) : clamp x lo hi ≤ hi :=
  max_le h (min_le_left _ _)

/-- Every branch of the Decision Gate returns the base clamped score in
both the `confidence` and the `score` field. -/
theorem decide_conf_score (sym : String) (p : AssetProfile) (f : Factors) :
    (decide_from_factors sym p f).confidence = (build_score_breakdown p f).total_score
    ∧ (decide_from_factors sym p f).score = (build_score_breakdown p f).total_score := by
  unfold decide_from_factors
  dsimp only
  split_ifs <;> exact ⟨rfl, rfl⟩

/-- The total of the score breakdown, written out. -/
theorem build_total_eq (p : AssetProfile) (f : Factors) :
    (build_score_breakdown p f).total_score =
      clamp ((if f.po3_active = true then (2:ℚ) else 0)
        + (if f.liquidity_sweep = true then 2 else 0)
        + (if f.agreement_reclaim = true then 1 else 0)
        + (if f.mss_shift = true then 2 else 0)
        + (if (f.entry_confirmed_sniper?.getD false || f.entry_confirmed_continuation?.getD false
              || f.entry_confirmed) = true then 1 else 0)
        + (if f.session_alignment = true then 1 else 0)
        + (if f.htf_alignment = true then 1 else 0)
        + (if f.distribution_active = true then 1/2 else 0)) 0 10 := rfl

/-- The RR hard stop of the Decision Gate. -/
theorem gate_low_rr (sym : String) (p : AssetProfile) (f : Factors) (h : f.rr < MIN_RR) :
    (decide_from_factors sym p f).action = "WAIT"
    ∧ (decide_from_factors sym p f).mode = "standby"
    ∧ (decide_from_factors sym p f).commentary =
        "RR below minimum 2.0 requirement."
          ++ (if f.news_block = true then " ⚠️ News risk: high-impact events nearby." else "") := by
  unfold decide_from_factors
  dsimp only
  rw [if_pos h]
  exact ⟨rfl, rfl, rfl⟩

/-- A fired gate decision comes from the sniper check or the
continuation check, threshold included. -/
theorem gate_fire_characterization (sym : String) (p : AssetProfile) (f : Factors)
    (h : (decide_from_factors sym p f).action = "BUY NOW"
      ∨ (decide_from_factors sym p f).action = "SELL NOW") :
    (sniper_ready f
      ∧ clamp ((build_score_breakdown p f).total_score
          + (if f.sniper_clean = true then (1:ℚ) else 0)) 0 10 ≥ EXECUTION_CONFIDENCE_MIN)
    ∨ (continuation_ready f
      ∧ (build_score_breakdown p f).total_score ≥ SETUP_SCORE_THRESHOLD) := by
  by_cases h1 : f.rr < MIN_RR
  · rw [(gate_low_rr sym p f h1).1] at h
    rcases h with h | h <;> exact absurd h (by decide)
  · by_cases h2 : sniper_ready f
      ∧ clamp ((build_score_breakdown p f).total_score
          + (if f.sniper_clean = true then (1:ℚ) else 0)) 0 10 ≥ EXECUTION_CONFIDENCE_MIN
    · exact Or.inl h2
    · by_cases h3 : continuation_ready f
        ∧ (build_score_breakdown p f).total_score ≥ SETUP_SCORE_THRESHOLD
      · exact Or.inr h3
      · have ha : (decide_from_factors sym p f).action = "WATCH" := by
          unfold decide_from_factors
          dsimp only
          rw [if_neg h1, if_neg h2, if_neg h3]
        rw [ha] at h
        rcases h with h | h <;> exact absurd h (by decide)

/-- `apply_sizing` only touches `risk_pct`, `size`, `meta` and
`trade_plan`. -/
theorem apply_sizing_fields (d : Decision) (p : AssetProfile) (f : Factors) :
    (apply_sizing d p f).symbol = d.symbol ∧ (apply_sizing d p f).bias = d.bias
    ∧ (apply_sizing d p f).mode = d.mode ∧ (apply_sizing d p f).confidence = d.confidence
    ∧ (apply_sizing d p f).action = d.action ∧ (apply_sizing d p f).commentary = d.commentary := by
  unfold apply_sizing
  rcases he : f.entry? with _ | e
  · simp [he]
  · rcases hs : f.stop? with _ | s
    · simp [he, hs]
    · simp only [he, hs]
      split_ifs <;> exact ⟨rfl, rfl, rfl, rfl, rfl, rfl⟩

/-- The cooldown gate either passes the decision through or downgrades
it to WAIT. -/
theorem cooldown_gate_cases (sym : String) (d : Decision) (now : ℤ) (st : CooldownState) :
    (cooldown_gate sym d now st).1 = d ∨ (cooldown_gate sym d now st).1.action = "WAIT" := by
  unfold cooldown_gate
  dsimp only
  split_ifs <;> first | exact Or.inr rfl | exact Or.inl rfl

/-- The confidence gate either passes the decision through or downgrades
it to WAIT. -/
theorem conf_gate_cases (sym : String) (d : Decision) :
    conf_gate sym d = d ∨ (conf_gate sym d).action = "WAIT" := by
  unfold conf_gate
  split_ifs <;> first | exact Or.inr rfl | exact Or.inl rfl

/-- The written-back action always equals the proposed action. -/
theorem promote_action_eq (sym : String) (d0 : Decision) (f : Factors) :
    (promote_decision sym d0 f).action = breakout_propose d0 f := by
  unfold promote_decision
  split_ifs with h
  · rfl
  · exact (not_ne_iff.mp h).symm

/-- A proposed BUY NOW can only come from a bullish breakout match. -/
theorem breakout_propose_eq_buy (d0 : Decision) (f : Factors)
    (h : breakout_propose d0 f = "BUY NOW") :
    strLower d0.bias = "bullish" ∧ f.bull_break = true := by
  unfold breakout_propose at h
  dsimp only at h
  split_ifs at h <;>
    first
      | assumption
      | exact absurd h (by decide)
      | exact absurd (Or.inl h) (by assumption)

/-- A proposed SELL NOW can only come from a bearish breakout match. -/
theorem breakout_propose_eq_sell (d0 : Decision) (f : Factors)
    (h : breakout_propose d0 f = "SELL NOW") :
    strLower d0.bias = "bearish" ∧ f.bear_break = true := by
  unfold breakout_propose at h
  dsimp only at h
  split_ifs at h <;>
    first
      | assumption
      | exact absurd h (by decide)
      | exact absurd (Or.inr h) (by assumption)

/-- A BUY NOW emitted by the loop body of `run_decisions` passed the
RR-minimum gate and had the bullish breakout flag set for a bullish
bias. -/
theorem step_emits_buy (p : AssetProfile) (f : Factors) (now : ℤ) (st : CooldownState)
    (h : (runDecisionStep p f now st).1.action = "BUY NOW") :
    f.min_rr ≤ f.rr
    ∧ strLower (decide_from_factors p.symbol p f).bias = "bullish"
    ∧ f.bull_break = true := by
  unfold runDecisionStep at h
  dsimp only at h
  split_ifs at h with hreg hrr hbs
  · simp at h
  · simp at h
  · exact absurd (Or.inl h) hbs
  · refine ⟨le_of_not_lt hrr, ?_⟩
    set d0 := apply_sizing (decide_from_factors p.symbol p f) p f with hd0
    rcases cooldown_gate_cases p.symbol (conf_gate p.symbol (promote_decision p.symbol d0 f))
        now st with hcd | hcd
    · rw [hcd] at h
      rcases conf_gate_cases p.symbol (promote_decision p.symbol d0 f) with hcg | hcg
      · rw [hcg, promote_action_eq] at h
        have hbias := (apply_sizing_fields (decide_from_factors p.symbol p f) p f).2.1
        have hb := breakout_propose_eq_buy d0 f h
        rw [hd0, hbias] at hb
        exact hb
      · rw [hcg] at h
        exact absurd h (by decide)
    · rw [hcd] at h
      exact absurd h (by decide)

/-- A SELL NOW emitted by the loop body of `run_decisions` passed the
RR-minimum gate and had the bearish breakout flag set for a bearish
bias. -/
theorem step_emits_sell (p : AssetProfile) (f : Factors) (now : ℤ) (st : CooldownState)
    (h : (runDecisionStep p f now st).1.action = "SELL NOW") :
    f.min_rr ≤ f.rr
    ∧ strLower (decide_from_factors p.symbol p f).bias = "bearish"
    ∧ f.bear_break = true := by
  unfold runDecisionStep at h
  dsimp only at h
  split_ifs at h with hreg hrr hbs
  · simp at h
  · simp at h
  · exact absurd (Or.inr h) hbs
  · refine ⟨le_of_not_lt hrr, ?_⟩
    set d0 := apply_sizing (decide_from_factors p.symbol p f) p f with hd0
    rcases cooldown_gate_cases p.symbol (conf_gate p.symbol (promote_decision p.symbol d0 f))
        now st with hcd | hcd
    · rw [hcd] at h
      rcases conf_gate_cases p.symbol (promote_decision p.symbol d0 f) with hcg | hcg
      · rw [hcg, promote_action_eq] at h
        have hbias := (apply_sizing_fields (decide_from_factors p.symbol p f) p f).2.1
        have hb := breakout_propose_eq_sell d0 f h
        rw [hd0, hbias] at hb
        exact hb
      · rw [hcg] at h
        exact absurd h (by decide)
    · rw [hcd] at h
      exact absurd h (by decide)

/-- Every decision in the output of `run_decisions` is the loop body
applied to its profile, the factor set of that profile, and some intermediate
cooldown state. -/
theorem run_decisions_mem {ps : List AssetProfile} {fbs : List (String × Factors)} {now : ℤ}
    {st : CooldownState} {d : Decision} (h : d ∈ (run_decisions ps fbs now st).1) :
    ∃ q, q ∈ ps ∧ ∃ st0, d = (runDecisionStep q (lookupFactors fbs q.symbol) now st0).1 := by
  induction ps generalizing st with
  | nil => simp [run_decisions] at h
  | cons p ps ih =>
    simp only [run_decisions] at h
    rcases List.mem_cons.mp h with h1 | h1
    · exact ⟨p, List.mem_cons_self _ _, st, h1⟩
    · obtain ⟨q, hq, st0, he⟩ := ih h1
      exact ⟨q, List.mem_cons_of_mem _ hq, st0, he⟩

/-- `roundHalfEven` returns the floor or the floor plus one. -/
theorem roundHalfEven_mem (x : ℚ) :
    roundHalfEven x = ⌊x⌋ ∨ roundHalfEven x = ⌊x⌋ + 1 := by
  unfold roundHalfEven
  dsimp only
  split_ifs <;> simp

/-- `roundHalfEven` is monotone. -/
theorem roundHalfEven_le_of_le {x y : ℚ} (h : x ≤ y) :
    roundHalfEven x ≤ roundHalfEven y := by
  rcases lt_or_eq_of_le (Int.floor_le_floor h) with hf | hf
  · rcases roundHalfEven_mem x with hx | hx <;> rcases roundHalfEven_mem y with hy | hy <;> omega
  · unfold roundHalfEven
    dsimp only
    rw [← hf]
    have hr : x - ⌊x⌋ ≤ y - ⌊x⌋ := by linarith
    split_ifs <;> first | omega | linarith

/-- Python `round(·, n)` is monotone. -/
theorem pyRound_le_of_le (n : ℕ) {x y : ℚ} (h : x ≤ y) :
    pyRound x n ≤ pyRound y n := by
  unfold pyRound
  have h1 : x * 10 ^ n ≤ y * 10 ^ n :=
    mul_le_mul_of_nonneg_right h (by positivity)
  have h2 := roundHalfEven_le_of_le h1
  have h3 : ((roundHalfEven (x * 10 ^ n) : ℚ)) ≤ (roundHalfEven (y * 10 ^ n) : ℚ) := by
    exact_mod_cast h2
  exact (div_le_div_iff_of_pos_right (by positivity)).mpr h3

/-- The freshness weight decays with age. -/
theorem freshness_anti {a1 a2 : ℕ} (h : a1 ≤ a2) :
    _freshness_weight a2 ≤ _freshness_weight a1 := by
  unfold _freshness_weight
  have hq : (a1 : ℚ) ≤ (a2 : ℚ) := by exact_mod_cast h
  apply max_le_max le_rfl
  have h60 : (0:ℚ) < 60 := by norm_num
  have := (div_le_div_iff_of_pos_right h60).mpr hq
  linarith

/-- The life multiplier is never negative. -/
theorem fvg_life_nonneg (t fl : Bool) : 0 ≤ fvg_life t fl := by
  unfold fvg_life
  split_ifs <;> norm_num

/-- C10: with proximity, gap size and fill state held fixed, the FVG
score is non-increasing in the age of the gap, and a filled gap
contributes exactly 0 to `fvg_score`. -/
theorem fvg_score_age_monotone_and_filled_zero (prox size : ℚ) (touched filled : Bool)
    (a1 a2 : ℕ) (h : a1 ≤ a2) :
    compute_fvg_score_single prox size touched filled a2
        ≤ compute_fvg_score_single prox size touched filled a1
    ∧ fvg_gap_score prox size touched true a1 = 0
    ∧ compute_fvg_score_single prox size touched true a1 = 0 := by
  refine ⟨?_, ?_, ?_⟩
  · apply pyRound_le_of_le
    apply max_le_max le_rfl
    unfold fvg_gap_score
    apply mul_le_mul_of_nonneg_right ?_ (fvg_life_nonneg touched filled)
    have hf := freshness_anti h
    linarith
  · unfold fvg_gap_score fvg_life
    simp
  · unfold compute_fvg_score_single fvg_gap_score fvg_life
    simp [pyRound, roundHalfEven]

/-- Witness for C10 at a concrete gap. -/
theorem fvg_score_age_monotone_and_filled_zero_witness :
    compute_fvg_score_single 1 0 false false 20 ≤ compute_fvg_score_single 1 0 false false 5
    ∧ fvg_gap_score 1 0 false true 5 = 0
    ∧ compute_fvg_score_single 1 0 false true 5 = 0 :=
  fvg_score_age_monotone_and_filled_zero 1 0 false false 5 20 (by norm_num)

/-- C5: the confidence attached to every gate decision is the fixed
weighted sum of the boolean contributions clamped to [0, 10], and in
particular always lies in [0, 10]. -/
theorem confidence_is_clamped_weighted_sum (sym : String) (p : AssetProfile) (f : Factors) :
    (decide_from_factors sym p f).confidence =
      clamp ((if f.po3_active = true then (2:ℚ) else 0)
        + (if f.liquidity_sweep = true then 2 else 0)
        + (if f.agreement_reclaim = true then 1 else 0)
        + (if f.mss_shift = true then 2 else 0)
        + (if (f.entry_confirmed_sniper?.getD false || f.entry_confirmed_continuation?.getD false
              || f.entry_confirmed) = true then 1 else 0)
        + (if f.session_alignment = true then 1 else 0)
        + (if f.htf_alignment = true then 1 else 0)
        + (if f.distribution_active = true then 1/2 else 0)) 0 10
    ∧ 0 ≤ (decide_from_factors sym p f).confidence
    ∧ (decide_from_factors sym p f).confidence ≤ 10 := by
  have h := (decide_conf_score sym p f).1
  rw [h, build_total_eq]
  exact ⟨rfl, lo_le_clamp _ _ _, clamp_le_hi _ _ _ (by norm_num)⟩

/-- C6: the clean-sniper bonus never reaches the `confidence` or `score`
field of the returned Decision: whatever `sniper_clean` is set to, both
fields equal the base clamped score of the factor set. -/
theorem sniper_bonus_never_in_confidence_or_score (sym : String) (p : AssetProfile)
    (f : Factors) (b : Bool) :
    (decide_from_factors sym p { f with sniper_clean := b }).confidence
        = (build_score_breakdown p f).total_score
    ∧ (decide_from_factors sym p { f with sniper_clean := b }).score
        = (build_score_breakdown p f).total_score :=
  decide_conf_score sym p { f with sniper_clean := b }

/-- C3: when the bias the gate receives (the `po3_bias` key with the
`bias` key as fallback) is neutral, the Decision Gate never returns
BUY NOW or SELL NOW. -/
theorem neutral_bias_never_fires (sym : String) (p : AssetProfile) (f : Factors)
    (h : f.gateBias = "neutral") :
    (decide_from_factors sym p f).action ≠ "BUY NOW"
    ∧ (decide_from_factors sym p f).action ≠ "SELL NOW" := by
  constructor <;> intro hact
  · rcases gate_fire_characterization sym p f (Or.inl hact) with ⟨hs, _⟩ | ⟨hc, _⟩
    · rcases hs.2.2.2.2.2.2.2.2 with hb | hb <;> rw [h] at hb <;> exact absurd hb (by decide)
    · rcases hc.2.2.2.2.2 with hb | hb <;> rw [h] at hb <;> exact absurd hb (by decide)
  · rcases gate_fire_characterization sym p f (Or.inr hact) with ⟨hs, _⟩ | ⟨hc, _⟩
    · rcases hs.2.2.2.2.2.2.2.2 with hb | hb <;> rw [h] at hb <;> exact absurd hb (by decide)
    · rcases hc.2.2.2.2.2 with hb | hb <;> rw [h] at hb <;> exact absurd hb (by decide)

/-- Witness for C3 at the neutral EURUSD factor set. -/
theorem neutral_bias_never_fires_witness :
    neutralEURUSD.gateBias = "neutral"
    ∧ ((decide_from_factors "EURUSD" eurusdProfile neutralEURUSD).action ≠ "BUY NOW"
       ∧ (decide_from_factors "EURUSD" eurusdProfile neutralEURUSD).action ≠ "SELL NOW") :=
  ⟨by decide, neutral_bias_never_fires "EURUSD" eurusdProfile neutralEURUSD (by decide)⟩

/-- C1 (counterexample): `run_decisions` emits a BUY NOW through the
breakout-promotion path on a factor set for which neither the sniper nor
the continuation structural preconditions hold (no accumulation, phase
ACCUMULATION), refuting the claim that BUY NOW/SELL NOW arises only from
the two setup checks. -/
theorem breakout_promotion_fires_without_setup :
    ((run_decisions [eurusdProfile] [("EURUSD", breakoutFactors)] 10000
        initialCooldownState).1.map Decision.action = ["BUY NOW"])
    ∧ ¬ sniper_ready breakoutFactors
    ∧ ¬ continuation_ready breakoutFactors
    ∧ breakoutFactors.accumulation_detected = false
    ∧ strUpper breakoutFactors.po3_phase = "ACCUMULATION"
    ∧ breakoutFactors.bull_break = true := by
  refine ⟨by decide, by decide, by decide, rfl, by decide, rfl⟩

/-- C1 (amended): the Decision Gate itself fires only from the sniper or
the continuation setup check with all structural preconditions and the
corresponding threshold; the pipeline may additionally promote a
decision to BUY NOW/SELL NOW, but every BUY NOW/SELL NOW it emits is the
loop body applied to some listed profile q and the factor set of q, and
that originating factor set carries the breakout flag of the emitted
direction together with the matching directional bias. -/
theorem gate_fires_only_from_setups (sym : String) (p : AssetProfile) (f : Factors)
    (now : ℤ) (st : CooldownState) (ps : List AssetProfile)
    (fbs : List (String × Factors)) (d : Decision) :
    ((decide_from_factors sym p f).action = "BUY NOW"
        ∨ (decide_from_factors sym p f).action = "SELL NOW" →
      (sniper_ready f
        ∧ clamp ((build_score_breakdown p f).total_score
            + (if f.sniper_clean = true then (1:ℚ) else 0)) 0 10 ≥ EXECUTION_CONFIDENCE_MIN)
      ∨ (continuation_ready f
        ∧ (build_score_breakdown p f).total_score ≥ SETUP_SCORE_THRESHOLD))
    ∧ (d ∈ (run_decisions ps fbs now st).1 →
      d.action = "BUY NOW" ∨ d.action = "SELL NOW" →
      ∃ q, q ∈ ps ∧ ∃ st0 : CooldownState,
        d = (runDecisionStep q (lookupFactors fbs q.symbol) now st0).1
        ∧ ((d.action = "BUY NOW"
            ∧ strLower (decide_from_factors q.symbol q (lookupFactors fbs q.symbol)).bias
                = "bullish"
            ∧ (lookupFactors fbs q.symbol).bull_break = true)
          ∨ (d.action = "SELL NOW"
            ∧ strLower (decide_from_factors q.symbol q (lookupFactors fbs q.symbol)).bias
                = "bearish"
            ∧ (lookupFactors fbs q.symbol).bear_break = true))) := by
  refine ⟨gate_fire_characterization sym p f, ?_⟩
  intro hmem hact
  obtain ⟨q, hq, st0, he⟩ := run_decisions_mem hmem
  refine ⟨q, hq, st0, he, ?_⟩
  rcases hact with hb | hs
  · have hb2 := hb
    rw [he] at hb2
    have hc := step_emits_buy q (lookupFactors fbs q.symbol) now st0 hb2
    exact Or.inl ⟨hb, hc.2.1, hc.2.2⟩
  · have hs2 := hs
    rw [he] at hs2
    have hc := step_emits_sell q (lookupFactors fbs q.symbol) now st0 hs2
    exact Or.inr ⟨hs, hc.2.1, hc.2.2⟩

/-- Witness for C1 (amended): a sniper-ready factor set fires the gate,
and the decision the pipeline emits for it is the loop body applied to
its profile, in the direction of its bullish breakout flag. -/
theorem gate_fires_only_from_setups_witness :
    ((sniper_ready sniperFactors
        ∧ clamp ((build_score_breakdown eurusdProfile sniperFactors).total_score
            + (if sniperFactors.sniper_clean = true then (1:ℚ) else 0)) 0 10
          ≥ EXECUTION_CONFIDENCE_MIN)
      ∨ (continuation_ready sniperFactors
        ∧ (build_score_breakdown eurusdProfile sniperFactors).total_score
          ≥ SETUP_SCORE_THRESHOLD))
    ∧ (∃ q, q ∈ [eurusdProfile] ∧ ∃ st0 : CooldownState,
        emittedSniperDecision
            = (runDecisionStep q (lookupFactors [("EURUSD", sniperFactors)] q.symbol) 0 st0).1
        ∧ ((emittedSniperDecision.action = "BUY NOW"
            ∧ strLower (decide_from_factors q.symbol q
                (lookupFactors [("EURUSD", sniperFactors)] q.symbol)).bias = "bullish"
            ∧ (lookupFactors [("EURUSD", sniperFactors)] q.symbol).bull_break = true)
          ∨ (emittedSniperDecision.action = "SELL NOW"
            ∧ strLower (decide_from_factors q.symbol q
                (lookupFactors [("EURUSD", sniperFactors)] q.symbol)).bias = "bearish"
            ∧ (lookupFactors [("EURUSD", sniperFactors)] q.symbol).bear_break = true))) :=
  ⟨(gate_fires_only_from_setups "EURUSD" eurusdProfile sniperFactors 0 initialCooldownState
      [] [] emittedSniperDecision).1 (Or.inl (by decide)),
   (gate_fires_only_from_setups "EURUSD" eurusdProfile sniperFactors 0 initialCooldownState
      [eurusdProfile] [("EURUSD", sniperFactors)] emittedSniperDecision).2
     (by decide) (by decide)⟩

/-- C2 (counterexample): with a `min_rr` override of 1.0 in the factor
set, the pipeline emits a BUY NOW whose originating factor set has
`rr = 1.5 < 2.0`, refuting the claim that every emitted BUY NOW/SELL NOW
has `rr ≥ 2.0`. -/
theorem pipeline_emits_buy_below_rr_floor :
    ((run_decisions [eurusdProfile] [("EURUSD", lowRRFactors)] 10000
        initialCooldownState).1.map Decision.action = ["BUY NOW"])
    ∧ lowRRFactors.rr = 3/2
    ∧ lowRRFactors.rr < 2
    ∧ lowRRFactors.min_rr = 1 := by
  refine ⟨by decide, rfl, by decide, rfl⟩

/-- C2 (amended): the Decision Gate returns WAIT in standby mode with an
RR-floor commentary whenever `rr < 2.0`; and every BUY NOW/SELL NOW the
pipeline emits is the loop body applied to some listed profile q and the
factor set of q, and that originating factor set passed the decision
layer RR gate, i.e. satisfies `rr ≥ min_rr` (where `min_rr` defaults to
3.0 and is never set by the feature extractor). -/
theorem rr_floor_gate_and_pipeline (sym : String) (p : AssetProfile) (f : Factors)
    (now : ℤ) (st : CooldownState) (ps : List AssetProfile)
    (fbs : List (String × Factors)) (d : Decision) :
    (f.rr < MIN_RR →
      (decide_from_factors sym p f).action = "WAIT"
      ∧ (decide_from_factors sym p f).mode = "standby"
      ∧ (decide_from_factors sym p f).commentary =
          "RR below minimum 2.0 requirement."
            ++ (if f.news_block = true then " ⚠️ News risk: high-impact events nearby." else ""))
    ∧ (d ∈ (run_decisions ps fbs now st).1 →
      d.action = "BUY NOW" ∨ d.action = "SELL NOW" →
      ∃ q, q ∈ ps ∧ ∃ st0 : CooldownState,
        d = (runDecisionStep q (lookupFactors fbs q.symbol) now st0).1
        ∧ (lookupFactors fbs q.symbol).min_rr ≤ (lookupFactors fbs q.symbol).rr) := by
  refine ⟨gate_low_rr sym p f, ?_⟩
  intro hmem hact
  obtain ⟨q, hq, st0, he⟩ := run_decisions_mem hmem
  refine ⟨q, hq, st0, he, ?_⟩
  rcases hact with hb | hs
  · have hb2 := hb
    rw [he] at hb2
    exact (step_emits_buy q (lookupFactors fbs q.symbol) now st0 hb2).1
  · have hs2 := hs
    rw [he] at hs2
    exact (step_emits_sell q (lookupFactors fbs q.symbol) now st0 hs2).1

/-- Witness for C2 (amended). -/
theorem rr_floor_gate_and_pipeline_witness :
    ((decide_from_factors "EURUSD" eurusdProfile ({} : Factors)).action = "WAIT"
      ∧ (decide_from_factors "EURUSD" eurusdProfile ({} : Factors)).mode = "standby"
      ∧ (decide_from_factors "EURUSD" eurusdProfile ({} : Factors)).commentary =
          "RR below minimum 2.0 requirement."
            ++ (if ({} : Factors).news_block = true
                then " ⚠️ News risk: high-impact events nearby." else ""))
    ∧ (∃ q, q ∈ [eurusdProfile] ∧ ∃ st0 : CooldownState,
        emittedSniperDecision
            = (runDecisionStep q (lookupFactors [("EURUSD", sniperFactors)] q.symbol) 0 st0).1
        ∧ (lookupFactors [("EURUSD", sniperFactors)] q.symbol).min_rr
          ≤ (lookupFactors [("EURUSD", sniperFactors)] q.symbol).rr) :=
  ⟨(rr_floor_gate_and_pipeline "EURUSD" eurusdProfile ({} : Factors) 0 initialCooldownState
      [] [] emittedSniperDecision).1 (by decide),
   (rr_floor_gate_and_pipeline "EURUSD" eurusdProfile ({} : Factors) 0 initialCooldownState
      [eurusdProfile] [("EURUSD", sniperFactors)] emittedSniperDecision).2
     (by decide) (by decide)⟩

/-- C4 (counterexample): the cooldown window is 30 minutes, not 60 — a
repeat BUY NOW 45 minutes (2700 s) after the last firing passes through;
and within the window the downgraded decision keeps its original mode
("sniper", not "standby") while dropping the original trade plan and
score instead of preserving them. -/
theorem cooldown_thirty_minutes_and_drops_plan :
    (runDecisionStep eurusdProfile sniperFactors 2700 firedState).1.action = "BUY NOW"
    ∧ (2700:ℤ) < 3600
    ∧ firedState.lastFired "EURUSD" = some "BUY NOW"
    ∧ firedState.lastFiredTs "EURUSD" = 0
    ∧ (runDecisionStep eurusdProfile sniperFactors 600 firedState).1.action = "WAIT"
    ∧ (runDecisionStep eurusdProfile sniperFactors 600 firedState).1.mode = "sniper"
    ∧ (runDecisionStep eurusdProfile sniperFactors 600 firedState).1.trade_plan
        = ({} : TradePlan)
    ∧ (runDecisionStep eurusdProfile sniperFactors 600 firedState).1.score = 0
    ∧ (runDecisionStep eurusdProfile sniperFactors 600 firedState).1.meta = MetaDict.empty
    ∧ (decide_from_factors "EURUSD" eurusdProfile sniperFactors).trade_plan.rr? = some 3
    ∧ (decide_from_factors "EURUSD" eurusdProfile sniperFactors).score = 10 := by
  refine ⟨by decide, by decide, by decide, rfl, by decide, by decide, by decide, by decide,
    by decide, by decide, by decide⟩

/-- C4 (amended): the cooldown window is `COOLDOWN_SECS = 1800` seconds
(30 minutes).  A BUY NOW/SELL NOW proposal repeating the recorded action
inside the window is downgraded to WAIT keeping the original mode, bias
and confidence but with an empty trade plan, zero score and empty meta,
and the cooldown record is left unchanged; any other proposal (opposite
direction, or outside the window) passes through unchanged and the
record is updated to the new action and timestamp. -/
theorem cooldown_gate_contract (sym : String) (d : Decision) (now : ℤ) (st : CooldownState)
    (hact : d.action = "BUY NOW" ∨ d.action = "SELL NOW") :
    COOLDOWN_SECS = 1800
    ∧ (now - st.lastFiredTs sym < COOLDOWN_SECS ∧ st.lastFired sym = some d.action →
       (cooldown_gate sym d now st).1.action = "WAIT"
       ∧ (cooldown_gate sym d now st).1.mode = d.mode
       ∧ (cooldown_gate sym d now st).1.bias = d.bias
       ∧ (cooldown_gate sym d now st).1.confidence = d.confidence
       ∧ (cooldown_gate sym d now st).1.trade_plan = ({} : TradePlan)
       ∧ (cooldown_gate sym d now st).1.score = 0
       ∧ (cooldown_gate sym d now st).1.meta = MetaDict.empty
       ∧ (cooldown_gate sym d now st).2 = st)
    ∧ (¬(now - st.lastFiredTs sym < COOLDOWN_SECS ∧ st.lastFired sym = some d.action) →
       (cooldown_gate sym d now st).1 = d
       ∧ (cooldown_gate sym d now st).2.lastFired sym = some d.action
       ∧ (cooldown_gate sym d now st).2.lastFiredTs sym = now) := by
  refine ⟨rfl, ?_, ?_⟩ <;> intro h
  · unfold cooldown_gate
    rw [if_pos hact]
    dsimp only
    rw [if_pos h]
    exact ⟨rfl, rfl, rfl, rfl, rfl, rfl, rfl, rfl⟩
  · unfold cooldown_gate
    rw [if_pos hact]
    dsimp only
    rw [if_neg h]
    refine ⟨rfl, ?_, ?_⟩ <;> simp

/-- Witness for C4 (amended): a repeat BUY NOW 10 minutes after firing
is downgraded; the same proposal 45 minutes after firing passes through
and re-records. -/
theorem cooldown_gate_contract_witness :
    ((cooldown_gate "EURUSD" sniperDecision8 600 firedState).1.action = "WAIT"
      ∧ (cooldown_gate "EURUSD" sniperDecision8 600 firedState).1.mode = sniperDecision8.mode
      ∧ (cooldown_gate "EURUSD" sniperDecision8 600 firedState).1.bias = sniperDecision8.bias
      ∧ (cooldown_gate "EURUSD" sniperDecision8 600 firedState).1.confidence
          = sniperDecision8.confidence
      ∧ (cooldown_gate "EURUSD" sniperDecision8 600 firedState).1.trade_plan = ({} : TradePlan)
      ∧ (cooldown_gate "EURUSD" sniperDecision8 600 firedState).1.score = 0
      ∧ (cooldown_gate "EURUSD" sniperDecision8 600 firedState).1.meta = MetaDict.empty
      ∧ (cooldown_gate "EURUSD" sniperDecision8 600 firedState).2 = firedState)
    ∧ ((cooldown_gate "EURUSD" sniperDecision8 2700 firedState).1 = sniperDecision8
      ∧ (cooldown_gate "EURUSD" sniperDecision8 2700 firedState).2.lastFired "EURUSD"
          = some sniperDecision8.action
      ∧ (cooldown_gate "EURUSD" sniperDecision8 2700 firedState).2.lastFiredTs "EURUSD"
          = 2700) :=
  ⟨(cooldown_gate_contract "EURUSD" sniperDecision8 600 firedState (Or.inl rfl)).2.1
      (by decide),
   (cooldown_gate_contract "EURUSD" sniperDecision8 2700 firedState (Or.inl rfl)).2.2
      (by decide)⟩

/-- C7 (counterexample): in the neutral/unavailable factor set the
session booleans are true (not false), and the resulting pipeline
decision has action WAIT (via the regime gate), not WATCH or
DO NOTHING. -/
theorem neutral_factor_set_session_true_and_wait :
    neutralEURUSD.session_alignment = true
    ∧ neutralEURUSD.session_valid_sniper = true
    ∧ neutralEURUSD.session_valid_continuation = true
    ∧ neutralEURUSD.is_priority = true
    ∧ ((run_decisions [eurusdProfile] [("EURUSD", neutralEURUSD)] 0
          initialCooldownState).1.map Decision.action = ["WAIT"]) := by
  refine ⟨rfl, rfl, rfl, by decide, by decide⟩

/-- C7 (amended): for empty or short bar series the feature extractor
stores the neutral/unavailable factor set — every structural and signal
boolean false, the session-validity booleans true, price levels the
"TBD" sentinel, `rr = 0`, phase ACCUMULATION — and the pipeline turns it
into a WAIT decision in standby mode (through the regime gate) with the
cooldown state untouched; no exception is involved (the embedding is
total). -/
theorem neutral_factor_set_contract (sym session_label : String) (nb : Bool)
    (prov ut fe : String) (p : AssetProfile) (now : ℤ) (st : CooldownState) :
    (neutralFactors sym session_label nb prov ut fe).po3_active = false
    ∧ (neutralFactors sym session_label nb prov ut fe).accumulation_detected = false
    ∧ (neutralFactors sym session_label nb prov ut fe).liquidity_sweep = false
    ∧ (neutralFactors sym session_label nb prov ut fe).agreement_reclaim = false
    ∧ (neutralFactors sym session_label nb prov ut fe).mss_shift = false
    ∧ (neutralFactors sym session_label nb prov ut fe).entry_confirmed = false
    ∧ (neutralFactors sym session_label nb prov ut fe).entry_confirmed_sniper? = some false
    ∧ (neutralFactors sym session_label nb prov ut fe).entry_confirmed_continuation?
        = some false
    ∧ (neutralFactors sym session_label nb prov ut fe).cisd_confirmed = false
    ∧ (neutralFactors sym session_label nb prov ut fe).sniper_clean = false
    ∧ (neutralFactors sym session_label nb prov ut fe).htf_alignment = false
    ∧ (neutralFactors sym session_label nb prov ut fe).distribution_active = false
    ∧ (neutralFactors sym session_label nb prov ut fe).structure_ok = false
    ∧ (neutralFactors sym session_label nb prov ut fe).structure_ok_continuation? = some false
    ∧ (neutralFactors sym session_label nb prov ut fe).liquidity_ok = false
    ∧ (neutralFactors sym session_label nb prov ut fe).certified = false
    ∧ (neutralFactors sym session_label nb prov ut fe).near_fvg = false
    ∧ (neutralFactors sym session_label nb prov ut fe).session_valid_sniper = true
    ∧ (neutralFactors sym session_label nb prov ut fe).session_valid_continuation = true
    ∧ (neutralFactors sym session_label nb prov ut fe).session_alignment = true
    ∧ (neutralFactors sym session_label nb prov ut fe).entry? = none
    ∧ (neutralFactors sym session_label nb prov ut fe).stop? = none
    ∧ (neutralFactors sym session_label nb prov ut fe).tp1? = none
    ∧ (neutralFactors sym session_label nb prov ut fe).tp2? = none
    ∧ (neutralFactors sym session_label nb prov ut fe).rr = 0
    ∧ (neutralFactors sym session_label nb prov ut fe).po3_phase = "ACCUMULATION"
    ∧ (runDecisionStep p (neutralFactors sym session_label nb prov ut fe) now st).1.action
        = "WAIT"
    ∧ (runDecisionStep p (neutralFactors sym session_label nb prov ut fe) now st).1.mode
        = "standby"
    ∧ (runDecisionStep p (neutralFactors sym session_label nb prov ut fe) now st).2 = st := by
  refine ⟨rfl, rfl, rfl, rfl, rfl, rfl, rfl, rfl, rfl, rfl, rfl, rfl, rfl, rfl, rfl, rfl,
    rfl, rfl, rfl, rfl, rfl, rfl, rfl, rfl, rfl, rfl, ?_, ?_, ?_⟩
  all_goals
    have hreg : (neutralFactors sym session_label nb prov ut fe).structure_ok = false
        ∨ strLower (neutralFactors sym session_label nb prov ut fe).volatility_risk
          = "extreme" := Or.inl rfl
  · unfold runDecisionStep
    dsimp only
    rw [if_pos hreg]
  · unfold runDecisionStep
    dsimp only
    rw [if_pos hreg]
    show (apply_sizing (decide_from_factors p.symbol p
      (neutralFactors sym session_label nb prov ut fe)) p
      (neutralFactors sym session_label nb prov ut fe)).mode = "standby"
    rw [(apply_sizing_fields _ _ _).2.2.1]
    exact (gate_low_rr p.symbol p (neutralFactors sym session_label nb prov ut fe)
      (by norm_num [neutralFactors, MIN_RR])).2.1
  · unfold runDecisionStep
    dsimp only
    rw [if_pos hreg]

/-- C8: evaluating the trade-plan fragment of `build_snapshot` on sixty
degenerate bars (each with `high == low`, price drifting up and then
flat for fifteen bars) yields a directional PO3 bias with a zero ATR, so
the stop coincides with the entry and the rr division
`abs(tp1 - entry) / abs(entry - stop)` is `0.0 / 0.0` — in Python a
`ZeroDivisionError` that propagates out of `build_snapshot` (modelled
here by `none`), contradicting the claimed sentinel recovery. -/
theorem rr_division_raises_on_degenerate_bars :
    failingBars.length = 60
    ∧ failingBars.all (fun b => b.high == b.low) = true
    ∧ price_action_bias failingBars = "bullish"
    ∧ detect_sweep failingBars = (false, false)
    ∧ atr_last failingBars = some 0
    ∧ (build_trade_plan_rr failingBars).1 = "bullish"
    ∧ (build_trade_plan_rr failingBars).2 = none := by
  refine ⟨by decide, by decide, by decide, by decide, by decide, by decide, by decide⟩

/-- C9 (counterexample): the sizing module gives "sniper" and
"continuation" the same base rate (both fall into the unknown-mode
branch, 0.25%, the same as "conservative"), and at confidence 8 — above
the claimed ~7.8 full-multiplier point — the confidence multiplier is
only 0.6, so the computed risk is 0.15%, not the full 0.25%. -/
theorem sizing_modes_not_distinct_and_no_full_multiplier_at_8 :
    _mode_base_risk_pct "sniper" = 1/400
    ∧ _mode_base_risk_pct "continuation" = 1/400
    ∧ _mode_base_risk_pct "conservative" = 1/400
    ∧ (apply_sizing sniperDecision8 eurusdProfile sizingFactors).risk_pct = 3/2000
    ∧ (apply_sizing continuationDecision8 eurusdProfile sizingFactors).risk_pct = 3/2000
    ∧ (3:ℚ)/2000 < 1/400 := by
  refine ⟨by decide, by decide, by decide, by decide, by decide, by decide⟩

/-- C9 (amended): with a numeric entry and stop at positive distance,
the returned `risk_pct` is the mode base rate (standby 0, conservative
0.25%, balanced 0.5%, aggressive 0.75%, any other mode — including
"sniper" and "continuation" — 0.25%) times the confidence multiplier
`clamp((confidence − 5)/5, 0, 1)` (zero at or below confidence 5, full
only at 10) times the volatility multiplier (0.6 high, 0.25 extreme),
clamped to at most 1% of equity; standby mode and confidence ≤ 5 give
zero risk and zero size; and a non-numeric entry or stop returns the
decision unchanged (no sizing attached). -/
theorem apply_sizing_contract (d : Decision) (p : AssetProfile) (f : Factors) :
    (∀ e s, f.entry? = some e → f.stop? = some s → 0 < |e - s| →
      (apply_sizing d p f).risk_pct =
          clamp (_mode_base_risk_pct d.mode * clamp ((d.confidence - 5) / 5) 0 1
            * _volatility_mult f.volatility_risk) 0 (1/100)
      ∧ (apply_sizing d p f).risk_pct ≤ 1/100
      ∧ (d.mode = "standby" →
          (apply_sizing d p f).risk_pct = 0 ∧ (apply_sizing d p f).size = 0)
      ∧ (d.confidence ≤ 5 →
          (apply_sizing d p f).risk_pct = 0 ∧ (apply_sizing d p f).size = 0))
    ∧ _mode_base_risk_pct "sniper" = _mode_base_risk_pct "conservative"
    ∧ _mode_base_risk_pct "continuation" = _mode_base_risk_pct "conservative"
    ∧ _mode_base_risk_pct "standby" = 0
    ∧ (f.entry? = none → apply_sizing d p f = d)
    ∧ (f.stop? = none → apply_sizing d p f = d) := by
  refine ⟨?_, by decide, by decide, by decide, ?_, ?_⟩
  · intro e s he hs hd
    unfold apply_sizing
    simp only [he, hs]
    rw [if_neg (not_le.mpr hd)]
    dsimp only
    refine ⟨rfl, clamp_le_hi _ _ _ (by norm_num), ?_, ?_⟩
    · intro hm
      have hb : _mode_base_risk_pct d.mode = 0 := by rw [hm]; decide
      rw [hb]
      constructor
      · show clamp (0 * _ * _) 0 (1/100) = 0
        rw [zero_mul, zero_mul]
        unfold clamp
        rw [min_eq_right (by norm_num), max_self]
      · show (if |e - s| ≠ 0 then
            _get_equity p 10000 * clamp (0 * _ * _) 0 (1/100) / |e - s| else 0) = 0
        rw [zero_mul, zero_mul]
        have hcl : clamp 0 0 (1/100) = (0:ℚ) := by
          unfold clamp
          rw [min_eq_right (by norm_num), max_self]
        rw [hcl, mul_zero]
        split_ifs <;> simp
    · intro hc
      have hx : (d.confidence - 5) / 5 ≤ 0 :=
        div_nonpos_iff.mpr (Or.inr ⟨by linarith, by norm_num⟩)
      have hm : clamp ((d.confidence - 5) / 5) 0 1 = 0 := by
        unfold clamp
        exact max_eq_left (le_trans (min_le_right _ _) hx)
      rw [hm]
      constructor
      · show clamp (_ * 0 * _) 0 (1/100) = 0
        rw [mul_zero, zero_mul]
        unfold clamp
        rw [min_eq_right (by norm_num), max_self]
      · show (if |e - s| ≠ 0 then
            _get_equity p 10000 * clamp (_ * 0 * _) 0 (1/100) / |e - s| else 0) = 0
        rw [mul_zero, zero_mul]
        have hcl : clamp 0 0 (1/100) = (0:ℚ) := by
          unfold clamp
          rw [min_eq_right (by norm_num), max_self]
        rw [hcl, mul_zero]
        split_ifs <;> simp
  · intro h
    rcases hs : f.stop? with _ | s <;> simp [apply_sizing, h, hs]
  · intro h
    rcases he : f.entry? with _ | e <;> simp [apply_sizing, h, he]

/-- Witness for C9 (amended). -/
theorem apply_sizing_contract_witness :
    (apply_sizing sniperDecision8 eurusdProfile sizingFactors).risk_pct ≤ 1/100
    ∧ ((apply_sizing standbyDecision eurusdProfile sizingFactors).risk_pct = 0
       ∧ (apply_sizing standbyDecision eurusdProfile sizingFactors).size = 0)
    ∧ ((apply_sizing (Decision.mk "EURUSD" "neutral" "balanced" 5 "WATCH" "" {} 0 0 0
          MetaDict.empty) eurusdProfile sizingFactors).risk_pct = 0
       ∧ (apply_sizing (Decision.mk "EURUSD" "neutral" "balanced" 5 "WATCH" "" {} 0 0 0
          MetaDict.empty) eurusdProfile sizingFactors).size = 0)
    ∧ apply_sizing sniperDecision8 eurusdProfile ({} : Factors) = sniperDecision8 :=
  ⟨((apply_sizing_contract sniperDecision8 eurusdProfile sizingFactors).1 100 99 rfl rfl
      (by norm_num)).2.1,
   ((apply_sizing_contract standbyDecision eurusdProfile sizingFactors).1 100 99 rfl rfl
      (by norm_num)).2.2.1 rfl,
   ((apply_sizing_contract (Decision.mk "EURUSD" "neutral" "balanced" 5 "WATCH" "" {} 0 0 0
      MetaDict.empty) eurusdProfile sizingFactors).1 100 99 rfl rfl
      (by norm_num)).2.2.2 (by norm_num),
   (apply_sizing_contract sniperDecision8 eurusdProfile ({} : Factors)).2.2.2.2.1 rfl⟩

end TA
